import Mathlib

/-!
Shallow embedding of the multi-device sync coordination contract
(`src/contracts/src/syncCoordination.rs`) and proofs about its
natural-language specification.

The contract's instance storage is modelled as a record of partial maps
(`String → Option _` per entity kind) together with the four monotonic
counters and the admin slot.  Soroban panics abort the whole invocation
and leave storage untouched; they are modelled by `Except Err`, whose
`error` results carry no state.  Ledger timestamps are passed in
explicitly as a `now : Nat` argument.
-/

namespace SyncCoordination

/-- Soroban `Address`, modelled as an opaque string token. -/
abbrev Address := String

/-- The `DeviceType` enum from the contract. -/
inductive DeviceType where
  | Mobile
  | Desktop
  | Tablet
  | Web
deriving DecidableEq

/-- The `SyncStatus` enum from the contract. -/
inductive SyncStatus where
  | Pending
  | InProgress
  | Completed
  | Failed
  | Conflict
deriving DecidableEq

/-- The `ConflictResolution` enum from the contract. -/
inductive ConflictResolution where
  | LastWriteWins
  | ManualReview
  | MergeData
  | FirstWriteWins
  | TimestampWins
deriving DecidableEq

/-- The `Device` record from the contract. -/
structure Device where
  id : String
  user_address : Address
  device_type : DeviceType
  name : String
  last_sync : Nat
  is_active : Bool
  capabilities : List String
  created_at : Nat
  last_seen : Nat
  sync_version : Nat
deriving DecidableEq

/-- The `SyncEntry` record from the contract. -/
structure SyncEntry where
  id : String
  user_address : Address
  device_id : String
  data_type : String
  data_hash : String
  timestamp : Nat
  sync_status : SyncStatus
  conflict_resolution : Option ConflictResolution
  parent_entry_id : Option String
  merged_with : List String
  payload : String
deriving DecidableEq

/-- The `SyncConflict` record from the contract. -/
structure SyncConflict where
  id : String
  user_address : Address
  entry_id_1 : String
  entry_id_2 : String
  conflict_type : String
  detected_at : Nat
  resolution : Option ConflictResolution
  resolved_at : Option Nat
  resolved_by : Option Address
  winning_entry_id : Option String
deriving DecidableEq

/-- The `SyncSession` record from the contract. -/
structure SyncSession where
  id : String
  user_address : Address
  device_id : String
  started_at : Nat
  completed_at : Option Nat
  status : SyncStatus
  entries_synced : Nat
  conflicts_resolved : Nat
  error_message : Option String
deriving DecidableEq

/-- Error kinds corresponding to the contract's `panic!` messages.
A Soroban panic aborts the invocation and reverts all storage writes. -/
inductive Err where
  | notFound (msg : String)
  | unauthorized (msg : String)
  | invalidState (msg : String)
  | alreadyInitialized
deriving DecidableEq

/-- The contract's instance storage (the `SyncCoordinationKey` key space):
one partial map per entity kind, the user device index, the four
monotonic counters, and the admin slot. -/
structure CState where
  admin : Option Address
  devices : String → Option Device
  entries : String → Option SyncEntry
  conflicts : String → Option SyncConflict
  sessions : String → Option SyncSession
  userDevices : Address → List String
  deviceCount : Nat
  entryCount : Nat
  conflictCount : Nat
  sessionCount : Nat

/-- Storage state produced by `initialize(admin)` on a fresh contract:
admin set, all four counters zero, no entities stored. -/
def initState (admin : Address) : CState where
  admin := some admin
  devices := fun _ => none
  entries := fun _ => none
  conflicts := fun _ => none
  sessions := fun _ => none
  userDevices := fun _ => []
  deviceCount := 0
  entryCount := 0
  conflictCount := 0
  sessionCount := 0

/-- Identity minting in the contract: `format!("<kind>_{}", n)`. -/
def mintId (kind : String) (n : Nat) : String :=
  kind ++ "_" ++ Nat.repr n

/-- The `get_device`: fails `NotFound` if absent. -/
def get_device (s : CState) (device_id : String) : Except Err Device :=
  match s.devices device_id with
  | some d => .ok d
  | none => .error (.notFound "Device not found")

/-- The `get_sync_session`: fails `NotFound` if absent. -/
def get_sync_session (s : CState) (session_id : String) : Except Err SyncSession :=
  match s.sessions session_id with
  | some sess => .ok sess
  | none => .error (.notFound "Sync session not found")

/-- The `get_sync_entry`: fails `NotFound` if absent. -/
def get_sync_entry (s : CState) (entry_id : String) : Except Err SyncEntry :=
  match s.entries entry_id with
  | some e => .ok e
  | none => .error (.notFound "Sync entry not found")

/-- The `get_sync_conflict`: fails `NotFound` if absent. -/
def get_sync_conflict (s : CState) (conflict_id : String) : Except Err SyncConflict :=
  match s.conflicts conflict_id with
  | some c => .ok c
  | none => .error (.notFound "Sync conflict not found")

/-- The `get_user_devices`: the user's device index, defaulting to empty. -/
def get_user_devices (s : CState) (user_address : Address) : List String :=
  s.userDevices user_address

/-- The `get_device_count`. -/
def get_device_count (s : CState) : Nat := s.deviceCount

/-- The `get_entry_count`. -/
def get_entry_count (s : CState) : Nat := s.entryCount

/-- The `get_conflict_count`. -/
def get_conflict_count (s : CState) : Nat := s.conflictCount

/-- The `get_session_count`. -/
def get_session_count (s : CState) : Nat := s.sessionCount

/-- The `register_device`: mints `device_<count+1>`, stores the device with
`is_active = true` and `sync_version = 1`, bumps the counter, and appends
the id to the owner's device index.  It performs no fallible lookups. -/
def register_device (s : CState) (user_address : Address) (device_type : DeviceType)
    (name : String) (capabilities : List String) (now : Nat) : CState × String :=
  let device_count := s.deviceCount
  let device_id := mintId "device" (device_count + 1)
  let device : Device :=
    { id := device_id
      user_address := user_address
      device_type := device_type
      name := name
      last_sync := 0
      is_active := true
      capabilities := capabilities
      created_at := now
      last_seen := now
      sync_version := 1 }
  let user_devices := get_user_devices s user_address ++ [device_id]
  ({ s with
      devices := fun k => if k = device_id then some device else s.devices k
      deviceCount := device_count + 1
      userDevices := fun u => if u = user_address then user_devices else s.userDevices u },
   device_id)

/-- The `start_sync_session`: ownership and activity checks, then creates an
`InProgress` session with zero counters and refreshes the device's
`last_seen`. -/
def start_sync_session (s : CState) (user_address : Address) (device_id : String)
    (now : Nat) : Except Err (CState × String) :=
  match s.devices device_id with
  | none => .error (.notFound "Device not found")
  | some device =>
    if device.user_address ≠ user_address then
      .error (.unauthorized "Device does not belong to user")
    else if device.is_active = false then
      .error (.invalidState "Device is not active")
    else
      let session_id := mintId "session" (s.sessionCount + 1)
      let session : SyncSession :=
        { id := session_id
          user_address := user_address
          device_id := device_id
          started_at := now
          completed_at := none
          status := .InProgress
          entries_synced := 0
          conflicts_resolved := 0
          error_message := none }
      let updated_device := { device with last_seen := now }
      .ok ({ s with
              sessions := fun k => if k = session_id then some session else s.sessions k
              sessionCount := s.sessionCount + 1
              devices := fun k => if k = device_id then some updated_device else s.devices k },
           session_id)

/-- The `check_for_conflicts`, exactly as in the source: the detection logic
is a stub that returns no conflict on every input. -/
def check_for_conflicts (_s : CState) (_user_address : Address) (_data_type : String)
    (_data_hash : String) (_timestamp : Nat) : Option String :=
  none

/-- The `submit_sync_entry`: requires the session to be `InProgress`, consults
`check_for_conflicts`, stores the new entry (status `Conflict` if a
conflict id was returned, else `Completed`), bumps the entry counter, and
updates the session's counters. -/
def submit_sync_entry (s : CState) (session_id : String) (device_id : String)
    (data_type : String) (data_hash : String) (payload : String) (now : Nat) :
    Except Err (CState × String) :=
  match s.sessions session_id with
  | none => .error (.notFound "Sync session not found")
  | some session =>
    if session.status ≠ SyncStatus.InProgress then
      .error (.invalidState "Session is not active")
    else
      let conflict_id := check_for_conflicts s session.user_address data_type data_hash now
      let entry_id := mintId "entry" (s.entryCount + 1)
      let sync_entry : SyncEntry :=
        { id := entry_id
          user_address := session.user_address
          device_id := device_id
          data_type := data_type
          data_hash := data_hash
          timestamp := now
          sync_status := if conflict_id.isSome then .Conflict else .Completed
          conflict_resolution := none
          parent_entry_id := none
          merged_with := []
          payload := payload }
      let updated_session :=
        { session with
            entries_synced := session.entries_synced + 1
            conflicts_resolved :=
              if conflict_id.isSome then session.conflicts_resolved + 1
              else session.conflicts_resolved }
      .ok ({ s with
              entries := fun k => if k = entry_id then some sync_entry else s.entries k
              entryCount := s.entryCount + 1
              sessions := fun k => if k = session_id then some updated_session else s.sessions k },
           entry_id)

/-- The `apply_last_write_wins`: marks the winning entry `Completed` with the
`LastWriteWins` resolution tag. -/
def apply_last_write_wins (s : CState) (_conflict : SyncConflict)
    (winning_entry_id : String) : Except Err CState :=
  match s.entries winning_entry_id with
  | none => .error (.notFound "Sync entry not found")
  | some winning_entry =>
    let updated_entry :=
      { winning_entry with
          sync_status := SyncStatus.Completed
          conflict_resolution := some ConflictResolution.LastWriteWins }
    .ok { s with
            entries := fun k => if k = winning_entry_id then some updated_entry else s.entries k }

/-- The `apply_first_write_wins`: marks the winning entry `Completed` with the
`FirstWriteWins` resolution tag. -/
def apply_first_write_wins (s : CState) (_conflict : SyncConflict)
    (winning_entry_id : String) : Except Err CState :=
  match s.entries winning_entry_id with
  | none => .error (.notFound "Sync entry not found")
  | some winning_entry =>
    let updated_entry :=
      { winning_entry with
          sync_status := SyncStatus.Completed
          conflict_resolution := some ConflictResolution.FirstWriteWins }
    .ok { s with
            entries := fun k => if k = winning_entry_id then some updated_entry else s.entries k }

/-- The `apply_timestamp_wins`: marks the winning entry `Completed` with the
`TimestampWins` resolution tag. -/
def apply_timestamp_wins (s : CState) (_conflict : SyncConflict)
    (winning_entry_id : String) : Except Err CState :=
  match s.entries winning_entry_id with
  | none => .error (.notFound "Sync entry not found")
  | some winning_entry =>
    let updated_entry :=
      { winning_entry with
          sync_status := SyncStatus.Completed
          conflict_resolution := some ConflictResolution.TimestampWins }
    .ok { s with
            entries := fun k => if k = winning_entry_id then some updated_entry else s.entries k }

/-- The `apply_manual_review`: marks the winning entry `Pending` with the
`ManualReview` resolution tag. -/
def apply_manual_review (s : CState) (_conflict : SyncConflict)
    (winning_entry_id : String) : Except Err CState :=
  match s.entries winning_entry_id with
  | none => .error (.notFound "Sync entry not found")
  | some winning_entry =>
    let updated_entry :=
      { winning_entry with
          sync_status := SyncStatus.Pending
          conflict_resolution := some ConflictResolution.ManualReview }
    .ok { s with
            entries := fun k => if k = winning_entry_id then some updated_entry else s.entries k }

/-- The `apply_merge_data`: concatenates the winning entry's payload with the
payload of the entry stored under the conflict's `entry_id_2` (separator
`"|"`), marks the winning entry `Completed`, and appends `entry_id_2` to
its `merged_with` list. -/
def apply_merge_data (s : CState) (conflict : SyncConflict)
    (winning_entry_id : String) : Except Err CState :=
  match s.entries winning_entry_id with
  | none => .error (.notFound "Sync entry not found")
  | some winning_entry =>
    match s.entries conflict.entry_id_2 with
    | none => .error (.notFound "Sync entry not found")
    | some other_entry =>
      let merged_payload := winning_entry.payload ++ "|" ++ other_entry.payload
      let updated_entry :=
        { winning_entry with
            payload := merged_payload
            sync_status := SyncStatus.Completed
            conflict_resolution := some ConflictResolution.MergeData
            merged_with := winning_entry.merged_with ++ [conflict.entry_id_2] }
      .ok { s with
              entries := fun k => if k = winning_entry_id then some updated_entry else s.entries k }

/-- The `resolve_conflict`: loads the conflict (`NotFound` if absent), checks
the resolver is the admin or the conflict's owner, dispatches the policy
effect onto the stored winning entry, then unconditionally seals the
conflict record with the current call's resolution, time, resolver and
winning entry id. -/
def resolve_conflict (s : CState) (conflict_id : String)
    (resolution : ConflictResolution) (winning_entry_id : String)
    (resolver : Address) (now : Nat) : Except Err (CState × Bool) :=
  match s.conflicts conflict_id with
  | none => .error (.notFound "Sync conflict not found")
  | some conflict =>
    match s.admin with
    | none => .error (.notFound "Admin not found")
    | some admin =>
      if resolver ≠ admin ∧ resolver ≠ conflict.user_address then
        .error (.unauthorized "Not authorized to resolve this conflict")
      else
        let applied : Except Err CState :=
          match resolution with
          | .LastWriteWins => apply_last_write_wins s conflict winning_entry_id
          | .FirstWriteWins => apply_first_write_wins s conflict winning_entry_id
          | .TimestampWins => apply_timestamp_wins s conflict winning_entry_id
          | .ManualReview => apply_manual_review s conflict winning_entry_id
          | .MergeData => apply_merge_data s conflict winning_entry_id
        match applied with
        | .error e => .error e
        | .ok s1 =>
          let updated_conflict :=
            { conflict with
                resolution := some resolution
                resolved_at := some now
                resolved_by := some resolver
                winning_entry_id := some winning_entry_id }
          .ok ({ s1 with
                  conflicts := fun k =>
                    if k = conflict_id then some updated_conflict else s1.conflicts k },
               true)

/-- The `complete_sync_session`: requires the session to be `InProgress`,
marks it `Completed` or `Failed` with the completion time and error
message, then updates the associated device's `last_sync` and bumps its
`sync_version` — unconditionally, regardless of `success`. -/
def complete_sync_session (s : CState) (session_id : String) (success : Bool)
    (error_message : Option String) (now : Nat) : Except Err (CState × Bool) :=
  match s.sessions session_id with
  | none => .error (.notFound "Sync session not found")
  | some session =>
    if session.status ≠ SyncStatus.InProgress then
      .error (.invalidState "Session is not in progress")
    else
      let updated_session :=
        { session with
            completed_at := some now
            status := if success then SyncStatus.Completed else SyncStatus.Failed
            error_message := error_message }
      let s1 := { s with
                    sessions := fun k =>
                      if k = session_id then some updated_session else s.sessions k }
      match s1.devices session.device_id with
      | none => .error (.notFound "Device not found")
      | some device =>
        let updated_device :=
          { device with last_sync := now, sync_version := device.sync_version + 1 }
        .ok ({ s1 with
                devices := fun k =>
                  if k = session.device_id then some updated_device else s1.devices k },
             true)

/-- The `deactivate_device`: ownership check, sets `is_active = false`,
refreshes `last_seen`. -/
def deactivate_device (s : CState) (user_address : Address) (device_id : String)
    (now : Nat) : Except Err (CState × Bool) :=
  match s.devices device_id with
  | none => .error (.notFound "Device not found")
  | some device =>
    if device.user_address ≠ user_address then
      .error (.unauthorized "Device does not belong to user")
    else
      let updated_device := { device with is_active := false, last_seen := now }
      .ok ({ s with
              devices := fun k => if k = device_id then some updated_device else s.devices k },
           true)

/-- The `update_device_capabilities`: ownership check, replaces the capability
set wholesale, refreshes `last_seen`. -/
def update_device_capabilities (s : CState) (user_address : Address) (device_id : String)
    (capabilities : List String) (now : Nat) : Except Err (CState × Bool) :=
  match s.devices device_id with
  | none => .error (.notFound "Device not found")
  | some device =>
    if device.user_address ≠ user_address then
      .error (.unauthorized "Device does not belong to user")
    else
      let updated_device := { device with capabilities := capabilities, last_seen := now }
      .ok ({ s with
              devices := fun k => if k = device_id then some updated_device else s.devices k },
           true)

/-- The `cleanup_old_data`: simplified maintenance stub; removes nothing. -/
def cleanup_old_data (s : CState) (_older_than : Nat) : CState × Nat :=
  (s, 0)

/-- One public state-changing operation of the contract, with its
arguments. -/
inductive Op where
  | registerDevice (user_address : Address) (device_type : DeviceType)
      (name : String) (capabilities : List String)
  | startSyncSession (user_address : Address) (device_id : String)
  | submitSyncEntry (session_id device_id data_type data_hash payload : String)
  | resolveConflict (conflict_id : String) (resolution : ConflictResolution)
      (winning_entry_id : String) (resolver : Address)
  | completeSyncSession (session_id : String) (success : Bool)
      (error_message : Option String)
  | deactivateDevice (user_address : Address) (device_id : String)
  | updateDeviceCapabilities (user_address : Address) (device_id : String)
      (capabilities : List String)
  | cleanupOldData (older_than : Nat)

/-- Apply one public operation at ledger time `now`.  A panic reverts all
storage writes, so errors carry no successor state. -/
def applyOp (s : CState) (op : Op) (now : Nat) : Except Err CState :=
  match op with
  | .registerDevice u dt name caps => .ok (register_device s u dt name caps now).1
  | .startSyncSession u did => (start_sync_session s u did now).map (·.1)
  | .submitSyncEntry sid did dt dh p => (submit_sync_entry s sid did dt dh p now).map (·.1)
  | .resolveConflict cid res win r => (resolve_conflict s cid res win r now).map (·.1)
  | .completeSyncSession sid success em => (complete_sync_session s sid success em now).map (·.1)
  | .deactivateDevice u did => (deactivate_device s u did now).map (·.1)
  | .updateDeviceCapabilities u did caps =>
      (update_device_capabilities s u did caps now).map (·.1)
  | .cleanupOldData older => .ok (cleanup_old_data s older).1

/-- States reachable from an initialized contract by any sequence of
successful public operations. -/
inductive Reachable : CState → Prop where
  | init (admin : Address) : Reachable (initState admin)
  | step {s s' : CState} (op : Op) (now : Nat) :
      Reachable s → applyOp s op now = .ok s' → Reachable s'

/-- The `Evolves s s'`: `s'` arises from `s` by a (possibly empty) sequence of
successful public operations. -/
inductive Evolves : CState → CState → Prop where
  | refl (s : CState) : Evolves s s
  | step {s s' s'' : CState} (op : Op) (now : Nat) :
      Evolves s s' → applyOp s' op now = .ok s'' → Evolves s s''

/-! ### Decimal representation of minted identities

`mintId` uses `Nat.repr` (the embedding of Rust's `format!`).  To show
distinct counters mint distinct identities we prove `Nat.repr` injective
via a structural description `decRepr` of `Nat.toDigitsCore` and a
decoding function. -/

/-- Structural (fuel-free) description of the decimal digit list that
`Nat.toDigitsCore 10` produces. -/
def decRepr (n : Nat) : List Char :=
  if n < 10 then [Nat.digitChar n]
  else decRepr (n / 10) ++ [Nat.digitChar (n % 10)]
decreasing_by exact Nat.div_lt_self (by omega) (by omega)

theorem toDigitsCore_eq_decRepr :
    ∀ (fuel n : Nat) (acc : List Char), n < fuel →
      Nat.toDigitsCore 10 fuel n acc = decRepr n ++ acc := by
  intro fuel
  induction fuel with
  | zero => intro n acc h; omega
  | succ f ih =>
    intro n acc h
    by_cases h10 : n < 10
    · have hdiv : n / 10 = 0 := Nat.div_eq_of_lt h10
      have hmod : n % 10 = n := Nat.mod_eq_of_lt h10
      rw [decRepr]
      simp [Nat.toDigitsCore, hdiv, hmod, h10]
    · have hne : ¬ n / 10 = 0 := by
        intro hz
        have := Nat.div_eq_of_lt (show n < 10 by omega)
        omega
      have hlt : n / 10 < f := by
        have h1 : n / 10 < n := Nat.div_lt_self (by omega) (by omega)
        omega
      rw [decRepr]
      simp only [Nat.toDigitsCore, hne, if_false, h10, if_neg]
      rw [ih (n / 10) (Nat.digitChar (n % 10) :: acc) hlt]
      simp

/-- Decode a digit list produced by `decRepr`. -/
def decVal (l : List Char) : Nat :=
  l.foldl (fun a c => a * 10 + (c.toNat - 48)) 0

theorem digitChar_toNat (d : Nat) (hd : d < 10) : (Nat.digitChar d).toNat = d + 48 := by
  interval_cases d <;> rfl

theorem decVal_decRepr (n : Nat) : decVal (decRepr n) = n := by
  induction n using Nat.strong_induction_on with
  | _ n ih =>
    rw [decRepr]
    by_cases h10 : n < 10
    · simp only [h10, if_true]
      simp [decVal, digitChar_toNat n h10]
    · simp only [h10, if_false]
      have h1 : n / 10 < n := Nat.div_lt_self (by omega) (by omega)
      have h2 : n % 10 < 10 := Nat.mod_lt n (by omega)
      have ihd := ih (n / 10) h1
      simp only [decVal] at ihd ⊢
      rw [List.foldl_append, ihd]
      simp [digitChar_toNat (n % 10) h2]
      omega

theorem decRepr_injective {m n : Nat} (h : decRepr m = decRepr n) : m = n := by
  have := congrArg decVal h
  rwa [decVal_decRepr, decVal_decRepr] at this

theorem repr_data_eq_decRepr (n : Nat) : (Nat.repr n).data = decRepr n := by
  show (Nat.toDigits 10 n).asString.data = decRepr n
  show Nat.toDigitsCore 10 (n + 1) n [] = decRepr n
  rw [toDigitsCore_eq_decRepr (n + 1) n [] (Nat.lt_succ_self n)]
  simp

theorem mintId_injective (kind : String) {m n : Nat}
    (h : mintId kind m = mintId kind n) : m = n := by
  apply decRepr_injective
  rw [← repr_data_eq_decRepr, ← repr_data_eq_decRepr]
  have hd := congrArg String.data h
  simp only [mintId, String.data_append, List.append_assoc] at hd
  exact List.append_cancel_left (List.append_cancel_left hd)

/-! ### Inversion lemmas for the fallible operations -/

theorem start_sync_session_ok {s : CState} {u : Address} {did : String} {now : Nat}
    {s' : CState} {sid : String}
    (h : start_sync_session s u did now = .ok (s', sid)) :
    ∃ d : Device, s.devices did = some d ∧ d.user_address = u ∧ d.is_active = true ∧
      sid = mintId "session" (s.sessionCount + 1) ∧
      s' = { s with
        sessions := fun k => if k = sid then
            some { id := sid, user_address := u, device_id := did, started_at := now,
                   completed_at := none, status := .InProgress, entries_synced := 0,
                   conflicts_resolved := 0, error_message := none }
          else s.sessions k
        sessionCount := s.sessionCount + 1
        devices := fun k => if k = did then some { d with last_seen := now } else s.devices k } := by
  simp only [start_sync_session] at h
  split at h
  · exact absurd h (by simp)
  · rename_i d hd
    split at h
    · exact absurd h (by simp)
    · rename_i hu
      split at h
      · exact absurd h (by simp)
      · rename_i hact
        rw [Except.ok.injEq, Prod.mk.injEq] at h
        obtain ⟨hs, hsid⟩ := h
        subst hsid
        refine ⟨d, hd, not_not.mp hu, ?_, rfl, hs.symm⟩
        cases hb : d.is_active with
        | false => exact absurd hb hact
        | true => rfl

theorem submit_sync_entry_ok {s : CState} {sid did dt dh p : String} {now : Nat}
    {s' : CState} {eid : String}
    (h : submit_sync_entry s sid did dt dh p now = .ok (s', eid)) :
    ∃ sess : SyncSession, s.sessions sid = some sess ∧ sess.status = .InProgress ∧
      eid = mintId "entry" (s.entryCount + 1) ∧
      s' = { s with
        entries := fun k => if k = eid then
            some { id := eid, user_address := sess.user_address, device_id := did,
                   data_type := dt, data_hash := dh, timestamp := now,
                   sync_status := .Completed, conflict_resolution := none,
                   parent_entry_id := none, merged_with := [], payload := p }
          else s.entries k
        entryCount := s.entryCount + 1
        sessions := fun k => if k = sid then
            some { sess with entries_synced := sess.entries_synced + 1 }
          else s.sessions k } := by
  simp only [submit_sync_entry, check_for_conflicts, Option.isSome_none, Bool.false_eq_true,
    if_false, if_neg] at h
  split at h
  · exact absurd h (by simp)
  · rename_i sess hsess
    split at h
    · exact absurd h (by simp)
    · rename_i hst
      rw [Except.ok.injEq, Prod.mk.injEq] at h
      obtain ⟨hs, heid⟩ := h
      subst heid
      exact ⟨sess, hsess, not_not.mp hst, rfl, hs.symm⟩

theorem complete_sync_session_ok {s : CState} {sid : String} {success : Bool}
    {em : Option String} {now : Nat} {s' : CState} {b : Bool}
    (h : complete_sync_session s sid success em now = .ok (s', b)) :
    ∃ (sess : SyncSession) (d : Device),
      s.sessions sid = some sess ∧ sess.status = .InProgress ∧
      s.devices sess.device_id = some d ∧ b = true ∧
      s' = { s with
        sessions := fun k => if k = sid then
            some { sess with
                   completed_at := some now,
                   status := if success then SyncStatus.Completed else SyncStatus.Failed,
                   error_message := em }
          else s.sessions k
        devices := fun k => if k = sess.device_id then
            some { d with last_sync := now, sync_version := d.sync_version + 1 }
          else s.devices k } := by
  simp only [complete_sync_session] at h
  split at h
  · exact absurd h (by simp)
  · rename_i sess hsess
    split at h
    · exact absurd h (by simp)
    · rename_i hst
      split at h
      · exact absurd h (by simp)
      · rename_i d hd
        rw [Except.ok.injEq, Prod.mk.injEq] at h
        exact ⟨sess, d, hsess, not_not.mp hst, hd, h.2.symm, h.1.symm⟩

theorem apply_last_write_wins_ok {s : CState} {c : SyncConflict} {win : String} {s' : CState}
    (h : apply_last_write_wins s c win = .ok s') :
    ∃ w : SyncEntry, s.entries win = some w ∧
      s' = { s with
        entries := fun k => if k = win then
            some { w with
                   sync_status := SyncStatus.Completed,
                   conflict_resolution := some ConflictResolution.LastWriteWins }
          else s.entries k } := by
  simp only [apply_last_write_wins] at h
  split at h
  · exact absurd h (by simp)
  · rename_i w hw
    rw [Except.ok.injEq] at h
    exact ⟨w, hw, h.symm⟩

theorem apply_first_write_wins_ok {s : CState} {c : SyncConflict} {win : String} {s' : CState}
    (h : apply_first_write_wins s c win = .ok s') :
    ∃ w : SyncEntry, s.entries win = some w ∧
      s' = { s with
        entries := fun k => if k = win then
            some { w with
                   sync_status := SyncStatus.Completed,
                   conflict_resolution := some ConflictResolution.FirstWriteWins }
          else s.entries k } := by
  simp only [apply_first_write_wins] at h
  split at h
  · exact absurd h (by simp)
  · rename_i w hw
    rw [Except.ok.injEq] at h
    exact ⟨w, hw, h.symm⟩

theorem apply_timestamp_wins_ok {s : CState} {c : SyncConflict} {win : String} {s' : CState}
    (h : apply_timestamp_wins s c win = .ok s') :
    ∃ w : SyncEntry, s.entries win = some w ∧
      s' = { s with
        entries := fun k => if k = win then
            some { w with
                   sync_status := SyncStatus.Completed,
                   conflict_resolution := some ConflictResolution.TimestampWins }
          else s.entries k } := by
  simp only [apply_timestamp_wins] at h
  split at h
  · exact absurd h (by simp)
  · rename_i w hw
    rw [Except.ok.injEq] at h
    exact ⟨w, hw, h.symm⟩

theorem apply_manual_review_ok {s : CState} {c : SyncConflict} {win : String} {s' : CState}
    (h : apply_manual_review s c win = .ok s') :
    ∃ w : SyncEntry, s.entries win = some w ∧
      s' = { s with
        entries := fun k => if k = win then
            some { w with
                   sync_status := SyncStatus.Pending,
                   conflict_resolution := some ConflictResolution.ManualReview }
          else s.entries k } := by
  simp only [apply_manual_review] at h
  split at h
  · exact absurd h (by simp)
  · rename_i w hw
    rw [Except.ok.injEq] at h
    exact ⟨w, hw, h.symm⟩

theorem apply_merge_data_ok {s : CState} {c : SyncConflict} {win : String} {s' : CState}
    (h : apply_merge_data s c win = .ok s') :
    ∃ w e2 : SyncEntry, s.entries win = some w ∧ s.entries c.entry_id_2 = some e2 ∧
      s' = { s with
        entries := fun k => if k = win then
            some { w with
                   payload := w.payload ++ "|" ++ e2.payload,
                   sync_status := SyncStatus.Completed,
                   conflict_resolution := some ConflictResolution.MergeData,
                   merged_with := w.merged_with ++ [c.entry_id_2] }
          else s.entries k } := by
  simp only [apply_merge_data] at h
  split at h
  · exact absurd h (by simp)
  · rename_i w hw
    split at h
    · exact absurd h (by simp)
    · rename_i e2 he2
      rw [Except.ok.injEq] at h
      exact ⟨w, e2, hw, he2, h.symm⟩

/-- The state written by a successful policy dispatch: whichever policy
ran, only the winning entry's slot changed, and the conflict/session/
device stores and all counters are untouched. -/
theorem apply_policy_frame {s : CState} {c : SyncConflict} {win : String} {s' : CState}
    {res : ConflictResolution}
    (h : (match res with
          | .LastWriteWins => apply_last_write_wins s c win
          | .FirstWriteWins => apply_first_write_wins s c win
          | .TimestampWins => apply_timestamp_wins s c win
          | .ManualReview => apply_manual_review s c win
          | .MergeData => apply_merge_data s c win) = .ok s') :
    s'.admin = s.admin ∧ s'.devices = s.devices ∧ s'.conflicts = s.conflicts ∧
    s'.sessions = s.sessions ∧ s'.userDevices = s.userDevices ∧
    s'.deviceCount = s.deviceCount ∧ s'.entryCount = s.entryCount ∧
    s'.conflictCount = s.conflictCount ∧ s'.sessionCount = s.sessionCount ∧
    (∀ k, k ≠ win → s'.entries k = s.entries k) := by
  cases res with
  | LastWriteWins =>
    obtain ⟨w, hw, hs'⟩ := apply_last_write_wins_ok h
    subst hs'
    refine ⟨rfl, rfl, rfl, rfl, rfl, rfl, rfl, rfl, rfl, fun k hk => ?_⟩
    simp [hk]
  | FirstWriteWins =>
    obtain ⟨w, hw, hs'⟩ := apply_first_write_wins_ok h
    subst hs'
    refine ⟨rfl, rfl, rfl, rfl, rfl, rfl, rfl, rfl, rfl, fun k hk => ?_⟩
    simp [hk]
  | TimestampWins =>
    obtain ⟨w, hw, hs'⟩ := apply_timestamp_wins_ok h
    subst hs'
    refine ⟨rfl, rfl, rfl, rfl, rfl, rfl, rfl, rfl, rfl, fun k hk => ?_⟩
    simp [hk]
  | ManualReview =>
    obtain ⟨w, hw, hs'⟩ := apply_manual_review_ok h
    subst hs'
    refine ⟨rfl, rfl, rfl, rfl, rfl, rfl, rfl, rfl, rfl, fun k hk => ?_⟩
    simp [hk]
  | MergeData =>
    obtain ⟨w, e2, hw, he2, hs'⟩ := apply_merge_data_ok h
    subst hs'
    refine ⟨rfl, rfl, rfl, rfl, rfl, rfl, rfl, rfl, rfl, fun k hk => ?_⟩
    simp [hk]

theorem resolve_conflict_ok {s : CState} {cid : String} {res : ConflictResolution}
    {win : String} {r : Address} {now : Nat} {s' : CState} {b : Bool}
    (h : resolve_conflict s cid res win r now = .ok (s', b)) :
    ∃ (c : SyncConflict) (admin : Address) (s1 : CState),
      s.conflicts cid = some c ∧ s.admin = some admin ∧
      (r = admin ∨ r = c.user_address) ∧ b = true ∧
      (match res with
       | .LastWriteWins => apply_last_write_wins s c win
       | .FirstWriteWins => apply_first_write_wins s c win
       | .TimestampWins => apply_timestamp_wins s c win
       | .ManualReview => apply_manual_review s c win
       | .MergeData => apply_merge_data s c win) = .ok s1 ∧
      s' = { s1 with
        conflicts := fun k => if k = cid then
            some { c with
                   resolution := some res, resolved_at := some now,
                   resolved_by := some r, winning_entry_id := some win }
          else s1.conflicts k } := by
  simp only [resolve_conflict] at h
  split at h
  · exact absurd h (by simp)
  · rename_i c hc
    split at h
    · exact absurd h (by simp)
    · rename_i admin hadmin
      split at h
      · exact absurd h (by simp)
      · rename_i hauth
        split at h
        · exact absurd h (by simp)
        · rename_i s1 happly
          rw [Except.ok.injEq, Prod.mk.injEq] at h
          refine ⟨c, admin, s1, hc, hadmin, ?_, h.2.symm, happly, h.1.symm⟩
          rcases not_and_or.mp hauth with h1 | h1
          · exact Or.inl (not_not.mp h1)
          · exact Or.inr (not_not.mp h1)

/-! ### Concrete example state

A small populated storage state used to instantiate the theorems: one
admin, one user, one active device, one `InProgress` session, two
`Completed` entries for the logical record `(alice, "progress")` with
diverging fingerprints, and one unresolved `SyncConflict` over them. -/

def uAdmin : Address := "admin"

def uAlice : Address := "alice"

def sampleDevice : Device where
  id := "device_1"
  user_address := uAlice
  device_type := .Mobile
  name := "Phone"
  last_sync := 0
  is_active := true
  capabilities := ["read", "write"]
  created_at := 1
  last_seen := 1
  sync_version := 1

def sampleSession : SyncSession where
  id := "session_1"
  user_address := uAlice
  device_id := "device_1"
  started_at := 4
  completed_at := none
  status := .InProgress
  entries_synced := 0
  conflicts_resolved := 0
  error_message := none

def sampleEntry1 : SyncEntry where
  id := "entry_1"
  user_address := uAlice
  device_id := "device_1"
  data_type := "progress"
  data_hash := "h1"
  timestamp := 5
  sync_status := .Completed
  conflict_resolution := none
  parent_entry_id := none
  merged_with := []
  payload := "a"

def sampleEntry2 : SyncEntry where
  id := "entry_2"
  user_address := uAlice
  device_id := "device_1"
  data_type := "progress"
  data_hash := "h2"
  timestamp := 6
  sync_status := .Completed
  conflict_resolution := none
  parent_entry_id := none
  merged_with := []
  payload := "b"

def sampleConflict : SyncConflict where
  id := "conflict_1"
  user_address := uAlice
  entry_id_1 := "entry_1"
  entry_id_2 := "entry_2"
  conflict_type := "data"
  detected_at := 6
  resolution := none
  resolved_at := none
  resolved_by := none
  winning_entry_id := none

def cexState : CState where
  admin := some uAdmin
  devices := fun k => if k = "device_1" then some sampleDevice else none
  entries := fun k =>
    if k = "entry_1" then some sampleEntry1
    else if k = "entry_2" then some sampleEntry2
    else none
  conflicts := fun k => if k = "conflict_1" then some sampleConflict else none
  sessions := fun k => if k = "session_1" then some sampleSession else none
  userDevices := fun u => if u = uAlice then ["device_1"] else []
  deviceCount := 1
  entryCount := 2
  conflictCount := 1
  sessionCount := 1

/-! ### Claim C6 -/

/-- C6: for every session whose state is not `InProgress`,
`complete_sync_session` fails with an `InvalidState` error, and a second
completion of a session just completed (successfully or not) always fails
with that error rather than silently succeeding. -/
theorem complete_sync_session_not_idempotent :
    (∀ (s : CState) (sid : String) (success : Bool) (em : Option String) (now : Nat)
       (sess : SyncSession), s.sessions sid = some sess →
       sess.status ≠ SyncStatus.InProgress →
       complete_sync_session s sid success em now =
         .error (.invalidState "Session is not in progress")) ∧
    (∀ (s : CState) (sid : String) (success : Bool) (em : Option String) (now : Nat)
       (s' : CState) (b : Bool), complete_sync_session s sid success em now = .ok (s', b) →
       ∀ (success2 : Bool) (em2 : Option String) (now2 : Nat),
         complete_sync_session s' sid success2 em2 now2 =
           .error (.invalidState "Session is not in progress")) := by
  constructor
  · intro s sid success em now sess hsess hst
    simp [complete_sync_session, hsess, hst]
  · intro s sid success em now s' b h success2 em2 now2
    obtain ⟨sess, d, hsess, hst, hd, hb, hs'⟩ := complete_sync_session_ok h
    subst hs'
    cases success <;> simp [complete_sync_session]

/-- Witness for C6: in the concrete state, completing `session_1` succeeds
once and the immediate second completion fails `InvalidState`. -/
theorem complete_sync_session_not_idempotent_witness :
    ∃ s' : CState, complete_sync_session cexState "session_1" true none 20 = .ok (s', true) ∧
      complete_sync_session s' "session_1" false (some "late") 30 =
        .error (.invalidState "Session is not in progress") :=
  ⟨_, rfl,
    complete_sync_session_not_idempotent.2 cexState "session_1" true none 20 _ true rfl
      false (some "late") 30⟩

/-! ### Claim C7 -/

/-- C7: `start_sync_session` fails `NotFound` for an absent device,
`Unauthorized` when the stored device's owner differs from the caller,
`InvalidState` when the (owned) device is deactivated; on success it
creates an `InProgress` session with both counters zero and refreshes the
device's `last_seen` to the current time. -/
theorem start_sync_session_spec :
    ∀ (s : CState) (u : Address) (did : String) (now : Nat),
      (s.devices did = none →
        start_sync_session s u did now = .error (.notFound "Device not found")) ∧
      (∀ d : Device, s.devices did = some d → d.user_address ≠ u →
        start_sync_session s u did now =
          .error (.unauthorized "Device does not belong to user")) ∧
      (∀ d : Device, s.devices did = some d → d.user_address = u → d.is_active = false →
        start_sync_session s u did now = .error (.invalidState "Device is not active")) ∧
      (∀ (s' : CState) (sid : String), start_sync_session s u did now = .ok (s', sid) →
        ∃ d : Device, s.devices did = some d ∧
          s'.sessions sid = some
            { id := sid, user_address := u, device_id := did, started_at := now,
              completed_at := none, status := .InProgress, entries_synced := 0,
              conflicts_resolved := 0, error_message := none } ∧
          s'.devices did = some { d with last_seen := now }) := by
  intro s u did now
  refine ⟨?_, ?_, ?_, ?_⟩
  · intro h
    simp [start_sync_session, h]
  · intro d hd hne
    simp [start_sync_session, hd, hne]
  · intro d hd hown hact
    simp [start_sync_session, hd, hown, hact]
  · intro s' sid h
    obtain ⟨d, hd, hown, hact, hsid, hs'⟩ := start_sync_session_ok h
    subst hs'
    subst hsid
    exact ⟨d, hd, by simp, by simp⟩

/-- Witness for C7: concrete instances of all four branches — unknown
device id, foreign user, deactivated device, and a successful start. -/
theorem start_sync_session_spec_witness :
    start_sync_session cexState uAlice "device_9" 10 =
        .error (.notFound "Device not found") ∧
    start_sync_session cexState "mallory" "device_1" 10 =
        .error (.unauthorized "Device does not belong to user") ∧
    (∀ (s' : CState) (sid : String),
      start_sync_session cexState uAlice "device_1" 10 = .ok (s', sid) →
      ∃ d : Device, cexState.devices "device_1" = some d ∧
        s'.sessions sid = some
          { id := sid, user_address := uAlice, device_id := "device_1", started_at := 10,
            completed_at := none, status := .InProgress, entries_synced := 0,
            conflicts_resolved := 0, error_message := none } ∧
        s'.devices "device_1" = some { d with last_seen := 10 }) :=
  ⟨(start_sync_session_spec cexState uAlice "device_9" 10).1 rfl,
   (start_sync_session_spec cexState "mallory" "device_1" 10).2.1 sampleDevice rfl
     (by decide),
   fun s' sid h => (start_sync_session_spec cexState uAlice "device_1" 10).2.2.2 s' sid h⟩
/-! ### Claim C8 -/

/-- Fold a batch of `submit_sync_entry` calls for one session; each list
element carries the call's device id, data type, fingerprint, payload and
ledger time. -/
def submitMany (s : CState) (session_id : String) :
    List (String × String × String × String × Nat) → Except Err CState
  | [] => .ok s
  | (did, dt, dh, p, now) :: rest =>
    match submit_sync_entry s session_id did dt dh p now with
    | .error e => .error e
    | .ok (s1, _) => submitMany s1 session_id rest

theorem submitMany_counters :
    ∀ (subs : List (String × String × String × String × Nat)) (s : CState)
      (sid : String) (sess : SyncSession) (s' : CState),
      s.sessions sid = some sess → sess.status = .InProgress →
      submitMany s sid subs = .ok s' →
      ∃ sess' : SyncSession, s'.sessions sid = some sess' ∧
        sess'.status = .InProgress ∧
        sess'.entries_synced = sess.entries_synced + subs.length ∧
        sess'.conflicts_resolved = sess.conflicts_resolved := by
  intro subs
  induction subs with
  | nil =>
    intro s sid sess s' hsess hst h
    simp only [submitMany, Except.ok.injEq] at h
    subst h
    exact ⟨sess, hsess, hst, by simp, rfl⟩
  | cons sub rest ih =>
    intro s sid sess s' hsess hst h
    obtain ⟨did, dt, dh, p, now⟩ := sub
    simp only [submitMany] at h
    split at h
    · exact absurd h (by simp)
    · rename_i s1 eid hsub
      obtain ⟨sess0, hsess0, hst0, heid, hs1⟩ := submit_sync_entry_ok hsub
      rw [hsess] at hsess0
      have hse : sess0 = sess := (Option.some.inj hsess0).symm
      rw [hse] at hs1
      have hmid : s1.sessions sid =
          some { sess with entries_synced := sess.entries_synced + 1 } := by
        rw [hs1]; simp
      obtain ⟨sess', hsess', hst', hes, hcr⟩ := ih s1 sid _ s' hmid hst h
      have hes' : sess'.entries_synced = sess.entries_synced + 1 + rest.length := hes
      have hcr' : sess'.conflicts_resolved = sess.conflicts_resolved := hcr
      refine ⟨sess', hsess', hst', ?_, hcr'⟩
      simp only [List.length_cons]
      omega

/-- C8: `submit_sync_entry` fails `InvalidState` unless the session is
`InProgress`; each successful submission increments the session's
entries-synced counter by exactly 1 and leaves the conflicts counter
unchanged; and after a batch of N submissions into a session whose
counters start at 0 the session records entries-synced = N and
conflicts-resolved = 0 (the detector never reports a conflict). -/
theorem submit_sync_entry_counters :
    (∀ (s : CState) (sid did dt dh p : String) (now : Nat) (sess : SyncSession),
      s.sessions sid = some sess → sess.status ≠ SyncStatus.InProgress →
      submit_sync_entry s sid did dt dh p now =
        .error (.invalidState "Session is not active")) ∧
    (∀ (s : CState) (sid did dt dh p : String) (now : Nat) (s' : CState) (eid : String),
      submit_sync_entry s sid did dt dh p now = .ok (s', eid) →
      ∃ sess : SyncSession, s.sessions sid = some sess ∧
        s'.sessions sid = some { sess with entries_synced := sess.entries_synced + 1 }) ∧
    (∀ (subs : List (String × String × String × String × Nat)) (s : CState)
       (sid : String) (sess : SyncSession) (s' : CState),
      s.sessions sid = some sess → sess.status = .InProgress →
      sess.entries_synced = 0 → sess.conflicts_resolved = 0 →
      submitMany s sid subs = .ok s' →
      ∃ sess' : SyncSession, s'.sessions sid = some sess' ∧
        sess'.entries_synced = subs.length ∧ sess'.conflicts_resolved = 0) := by
  refine ⟨?_, ?_, ?_⟩
  · intro s sid did dt dh p now sess hsess hst
    simp [submit_sync_entry, hsess, hst]
  · intro s sid did dt dh p now s' eid h
    obtain ⟨sess, hsess, hst, heid, hs'⟩ := submit_sync_entry_ok h
    subst hs'
    exact ⟨sess, hsess, by simp⟩
  · intro subs s sid sess s' hsess hst hes hcr h
    obtain ⟨sess', hsess', hst', hes', hcr'⟩ := submitMany_counters subs s sid sess s' hsess hst h
    exact ⟨sess', hsess', by omega, by omega⟩

/-- Witness for C8: in the concrete state, a failed submission into a
completed session, a single counted submission, and a batch of two
submissions yielding counters (2, 0). -/
theorem submit_sync_entry_counters_witness :
    (∃ done : CState, complete_sync_session cexState "session_1" true none 9 = .ok (done, true) ∧
      submit_sync_entry done "session_1" "device_1" "progress" "h3" "c" 10 =
        .error (.invalidState "Session is not active")) ∧
    (∃ s' : CState, submitMany cexState "session_1"
        [("device_1", "progress", "h3", "c", 10), ("device_1", "progress", "h4", "d", 11)] =
        .ok s' ∧
      ∃ sess' : SyncSession, s'.sessions "session_1" = some sess' ∧
        sess'.entries_synced = 2 ∧ sess'.conflicts_resolved = 0) := by
  constructor
  · refine ⟨_, rfl, ?_⟩
    exact submit_sync_entry_counters.1 _ "session_1" "device_1" "progress" "h3" "c" 10
      { sampleSession with completed_at := some 9, status := SyncStatus.Completed }
      (by decide) (by decide)
  · refine ⟨_, rfl, ?_⟩
    exact submit_sync_entry_counters.2.2
      [("device_1", "progress", "h3", "c", 10), ("device_1", "progress", "h4", "d", 11)]
      cexState "session_1" sampleSession _ rfl rfl rfl rfl rfl

/-! ### Claim C10 -/

/-- C10: under every policy, a successful `resolve_conflict` writes only
the entry stored under the winning entry id and the conflict record
itself; the devices, sessions, user index, admin and all counters are
unchanged, every other entry and conflict is unchanged, and in particular
the losing entry of the conflict (whichever of the two competing entry
ids is not the winning one) is unchanged. -/
theorem resolve_conflict_frame :
    ∀ (s : CState) (cid : String) (res : ConflictResolution) (win : String)
      (r : Address) (now : Nat) (s' : CState) (b : Bool),
      resolve_conflict s cid res win r now = .ok (s', b) →
      s'.admin = s.admin ∧ s'.devices = s.devices ∧ s'.sessions = s.sessions ∧
      s'.userDevices = s.userDevices ∧ s'.deviceCount = s.deviceCount ∧
      s'.entryCount = s.entryCount ∧ s'.conflictCount = s.conflictCount ∧
      s'.sessionCount = s.sessionCount ∧
      (∀ k, k ≠ win → s'.entries k = s.entries k) ∧
      (∀ k, k ≠ cid → s'.conflicts k = s.conflicts k) ∧
      (∀ c : SyncConflict, s.conflicts cid = some c →
        (c.entry_id_1 ≠ win → s'.entries c.entry_id_1 = s.entries c.entry_id_1) ∧
        (c.entry_id_2 ≠ win → s'.entries c.entry_id_2 = s.entries c.entry_id_2)) := by
  intro s cid res win r now s' b h
  obtain ⟨c, admin, s1, hc, hadmin, hauth, hb, happly, hs'⟩ := resolve_conflict_ok h
  obtain ⟨hA, hD, hC, hS, hU, hdc, hec, hcc, hsc, hE⟩ := apply_policy_frame happly
  subst hs'
  refine ⟨hA, hD, hS, hU, hdc, hec, hcc, hsc, hE, ?_, ?_⟩
  · intro k hk
    simp only [hk, if_false]
    rw [← hC]
  · intro c' hc'
    exact ⟨fun h1 => hE c'.entry_id_1 h1, fun h2 => hE c'.entry_id_2 h2⟩

/-- Witness for C10: resolving the concrete conflict with `MergeData` and
winner `entry_1` leaves the devices, sessions and the losing entry
`entry_2` untouched. -/
theorem resolve_conflict_frame_witness :
    ∃ s' : CState,
      resolve_conflict cexState "conflict_1" .MergeData "entry_1" uAdmin 20 = .ok (s', true) ∧
      s'.devices = cexState.devices ∧ s'.sessions = cexState.sessions ∧
      s'.entries "entry_2" = cexState.entries "entry_2" := by
  refine ⟨_, rfl, ?_, ?_, ?_⟩
  · exact (resolve_conflict_frame cexState "conflict_1" .MergeData "entry_1" uAdmin 20 _
      true rfl).2.1
  · exact (resolve_conflict_frame cexState "conflict_1" .MergeData "entry_1" uAdmin 20 _
      true rfl).2.2.1
  · exact (resolve_conflict_frame cexState "conflict_1" .MergeData "entry_1" uAdmin 20 _
      true rfl).2.2.2.2.2.2.2.2.1 "entry_2" (by decide)

/-! ### Claim C1 -/

/-- C1 counterexample: in the concrete state the only stored entries are
`entry_1` (record `(alice, "progress")`, fingerprint "h1", timestamp 5)
and `entry_2` (record `(alice, "progress")`, fingerprint "h2",
timestamp 6, status `Completed`), so the most recent `Completed`-status
entry for the logical record is `entry_2` and its fingerprint "h2"
differs from the incoming fingerprint "h3".  The original claim predicts
the new entry is stored with status `Conflict` and a `SyncConflict` is
created; instead the detector returns none, the new entry is stored with
status `Completed`, and the conflict store and counter are unchanged. -/
theorem conflict_detection_counterexample :
    (∀ (k : String) (e : SyncEntry), cexState.entries k = some e →
      (k = "entry_1" ∧ e = sampleEntry1) ∨ (k = "entry_2" ∧ e = sampleEntry2)) ∧
    sampleEntry1.user_address = uAlice ∧ sampleEntry1.data_type = "progress" ∧
    sampleEntry1.data_hash = "h1" ∧ sampleEntry1.timestamp = 5 ∧
    sampleEntry2.user_address = uAlice ∧ sampleEntry2.data_type = "progress" ∧
    sampleEntry2.data_hash = "h2" ∧ sampleEntry2.sync_status = SyncStatus.Completed ∧
    sampleEntry2.timestamp = 6 ∧
    sampleEntry1.timestamp < sampleEntry2.timestamp ∧
    sampleEntry2.data_hash ≠ "h3" ∧
    check_for_conflicts cexState uAlice "progress" "h3" 10 = none ∧
    ∃ s' : CState,
      submit_sync_entry cexState "session_1" "device_1" "progress" "h3" "p3" 10 =
        .ok (s', "entry_3") ∧
      (s'.entries "entry_3").map SyncEntry.sync_status = some SyncStatus.Completed ∧
      (s'.entries "entry_3").map SyncEntry.sync_status ≠ some SyncStatus.Conflict ∧
      s'.conflicts = cexState.conflicts ∧ s'.conflictCount = cexState.conflictCount := by
  refine ⟨?_, rfl, rfl, rfl, rfl, rfl, rfl, rfl, rfl, rfl, by decide, by decide, rfl,
    _, rfl, rfl, by decide, rfl, rfl⟩
  intro k e h
  simp only [cexState] at h
  split_ifs at h with h1 h2
  · exact Or.inl ⟨h1, (Option.some.inj h).symm⟩
  · exact Or.inr ⟨h2, (Option.some.inj h).symm⟩

/-- C1 amended: `check_for_conflicts` is a stub returning none on every
input, so every entry stored by a successful `submit_sync_entry` has
status `Completed` and no `SyncConflict` is ever created (conflict store
and conflict counter unchanged).  The claim's branch for "no diverging
prior entry exists" holds; the divergence branch does not. -/
theorem submit_sync_entry_never_conflicts :
    (∀ (s : CState) (u : Address) (dt dh : String) (t : Nat),
      check_for_conflicts s u dt dh t = none) ∧
    (∀ (s : CState) (sid did dt dh p : String) (now : Nat) (s' : CState) (eid : String),
      submit_sync_entry s sid did dt dh p now = .ok (s', eid) →
      (s'.entries eid).map SyncEntry.sync_status = some SyncStatus.Completed ∧
      s'.conflicts = s.conflicts ∧ s'.conflictCount = s.conflictCount) := by
  refine ⟨fun _ _ _ _ _ => rfl, ?_⟩
  intro s sid did dt dh p now s' eid h
  obtain ⟨sess, hsess, hst, heid, hs'⟩ := submit_sync_entry_ok h
  subst hs'
  exact ⟨by simp, rfl, rfl⟩

/-- Witness for the amended C1 theorem at the concrete state. -/
theorem submit_sync_entry_never_conflicts_witness :
    ∃ s' : CState,
      submit_sync_entry cexState "session_1" "device_1" "bookmarks" "h9" "p9" 12 =
        .ok (s', "entry_3") ∧
      (s'.entries "entry_3").map SyncEntry.sync_status = some SyncStatus.Completed ∧
      s'.conflicts = cexState.conflicts :=
  ⟨_, rfl,
    (submit_sync_entry_never_conflicts.2 cexState "session_1" "device_1" "bookmarks"
      "h9" "p9" 12 _ "entry_3" rfl).1,
    (submit_sync_entry_never_conflicts.2 cexState "session_1" "device_1" "bookmarks"
      "h9" "p9" 12 _ "entry_3" rfl).2.1⟩

/-! ### Claim C2 -/

/-- C2 counterexample: resolving the concrete unresolved conflict once
succeeds, and a second `resolve_conflict` on the same conflict id also
succeeds (returns ok true rather than an `InvalidState` error) and
changes the conflict's `winning_entry_id` and `resolved_at`. -/
theorem resolve_conflict_rerun_counterexample :
    ∃ s1 : CState,
      resolve_conflict cexState "conflict_1" .LastWriteWins "entry_1" uAdmin 20 =
        .ok (s1, true) ∧
      (s1.conflicts "conflict_1").map SyncConflict.resolution =
        some (some ConflictResolution.LastWriteWins) ∧
      (s1.conflicts "conflict_1").map SyncConflict.winning_entry_id = some (some "entry_1") ∧
      ∃ s2 : CState,
        resolve_conflict s1 "conflict_1" .FirstWriteWins "entry_2" uAdmin 30 =
          .ok (s2, true) ∧
        (s2.conflicts "conflict_1").map SyncConflict.winning_entry_id =
          some (some "entry_2") ∧
        (s2.conflicts "conflict_1").map SyncConflict.resolved_at = some (some 30) ∧
        (s1.conflicts "conflict_1").map SyncConflict.resolved_at = some (some 20) :=
  ⟨_, rfl, rfl, rfl, _, rfl, rfl, rfl, rfl⟩

theorem apply_policy_error {s : CState} {c : SyncConflict} {win : String}
    {res : ConflictResolution} {e : Err}
    (h : (match res with
          | .LastWriteWins => apply_last_write_wins s c win
          | .FirstWriteWins => apply_first_write_wins s c win
          | .TimestampWins => apply_timestamp_wins s c win
          | .ManualReview => apply_manual_review s c win
          | .MergeData => apply_merge_data s c win) = .error e) :
    e = .notFound "Sync entry not found" := by
  cases res <;>
    simp only [apply_last_write_wins, apply_first_write_wins, apply_timestamp_wins,
      apply_manual_review, apply_merge_data] at h <;>
    (repeat' split at h) <;>
    simp_all

/-- C2 amended: `resolve_conflict` has no already-resolved guard.  It
never fails with an `InvalidState` error, and whenever it succeeds —
including on an already-resolved conflict — it overwrites the conflict's
resolution, resolved_at, resolved_by and winning_entry_id with the
current call's values, so those fields are not write-once. -/
theorem resolve_conflict_no_rerun_guard :
    (∀ (s : CState) (cid : String) (res : ConflictResolution) (win : String)
       (r : Address) (now : Nat) (e : Err),
      resolve_conflict s cid res win r now = .error e →
      ∀ msg : String, e ≠ .invalidState msg) ∧
    (∀ (s : CState) (cid : String) (res : ConflictResolution) (win : String)
       (r : Address) (now : Nat) (s' : CState) (b : Bool) (c : SyncConflict),
      s.conflicts cid = some c →
      resolve_conflict s cid res win r now = .ok (s', b) →
      s'.conflicts cid = some { c with
        resolution := some res
        resolved_at := some now
        resolved_by := some r
        winning_entry_id := some win }) := by
  constructor
  · intro s cid res win r now e h msg
    simp only [resolve_conflict] at h
    split at h
    · rw [Except.error.injEq] at h
      subst h
      simp
    · split at h
      · rw [Except.error.injEq] at h
        subst h
        simp
      · split at h
        · rw [Except.error.injEq] at h
          subst h
          simp
        · split at h
          · rename_i e0 happly
            rw [Except.error.injEq] at h
            subst h
            rw [apply_policy_error happly]
            simp
          · exact absurd h (by simp)
  · intro s cid res win r now s' b c hc h
    obtain ⟨c', admin, s1, hc', hadmin, hauth, hb, happly, hs'⟩ := resolve_conflict_ok h
    rw [hc] at hc'
    have hcc : c' = c := (Option.some.inj hc').symm
    subst hs'
    rw [hcc]
    simp

/-- Witness for the amended C2 theorem: a conflict-owner resolution whose
seal carries exactly the call's values, and a failing call whose error is
not `InvalidState`. -/
theorem resolve_conflict_no_rerun_guard_witness :
    (∃ s' : CState,
      resolve_conflict cexState "conflict_1" .TimestampWins "entry_1" uAlice 21 =
        .ok (s', true) ∧
      s'.conflicts "conflict_1" = some { sampleConflict with
        resolution := some ConflictResolution.TimestampWins
        resolved_at := some 21
        resolved_by := some uAlice
        winning_entry_id := some "entry_1" }) ∧
    Err.notFound "Sync conflict not found" ≠ Err.invalidState "already resolved" :=
  ⟨⟨_, rfl,
    resolve_conflict_no_rerun_guard.2 cexState "conflict_1" .TimestampWins "entry_1"
      uAlice 21 _ true sampleConflict rfl rfl⟩,
   resolve_conflict_no_rerun_guard.1 cexState "conflict_9" .LastWriteWins "entry_1"
      uAdmin 5 _ rfl "already resolved"⟩

/-! ### Claim C3 -/

/-- C3 counterexample: completing the concrete `InProgress` session with
success = false still rewrites the associated device: its sync_version
goes from 1 to 2 and last_sync from 0 to the completion time, so the
device record does not stay unchanged on failed completions. -/
theorem complete_failure_updates_device_counterexample :
    ∃ s' : CState,
      complete_sync_session cexState "session_1" false (some "network timeout") 20 =
        .ok (s', true) ∧
      cexState.devices "device_1" = some sampleDevice ∧
      sampleDevice.sync_version = 1 ∧ sampleDevice.last_sync = 0 ∧
      (s'.devices "device_1").map Device.sync_version = some 2 ∧
      (s'.devices "device_1").map Device.last_sync = some 20 ∧
      s'.devices "device_1" ≠ cexState.devices "device_1" :=
  ⟨_, rfl, rfl, rfl, rfl, rfl, rfl, by decide⟩

/-- C3 amended: whenever `complete_sync_session` succeeds — with
success = true and success = false alike — it sets the associated
device's last_sync to the current time and increments its sync_version by
exactly 1; the device's sync-version therefore strictly increases on
every completed session, failed completions included, not only on
successful ones. -/
theorem complete_sync_session_updates_device :
    ∀ (s : CState) (sid : String) (success : Bool) (em : Option String) (now : Nat)
      (s' : CState) (b : Bool),
      complete_sync_session s sid success em now = .ok (s', b) →
      ∃ (sess : SyncSession) (d : Device),
        s.sessions sid = some sess ∧ s.devices sess.device_id = some d ∧
        s'.devices sess.device_id =
          some { d with last_sync := now, sync_version := d.sync_version + 1 } ∧
        d.sync_version < d.sync_version + 1 ∧
        s'.sessions sid = some { sess with
          completed_at := some now
          status := if success then SyncStatus.Completed else SyncStatus.Failed
          error_message := em } := by
  intro s sid success em now s' b h
  obtain ⟨sess, d, hsess, hst, hd, hb, hs'⟩ := complete_sync_session_ok h
  subst hs'
  exact ⟨sess, d, hsess, hd, by simp, Nat.lt_succ_self _, by simp⟩

/-- Witness for the amended C3 theorem: a failed completion at the
concrete state updates the device. -/
theorem complete_sync_session_updates_device_witness :
    ∃ s' : CState,
      complete_sync_session cexState "session_1" false (some "boom") 21 = .ok (s', true) ∧
      ∃ (sess : SyncSession) (d : Device),
        cexState.sessions "session_1" = some sess ∧
        cexState.devices sess.device_id = some d ∧
        s'.devices sess.device_id =
          some { d with last_sync := 21, sync_version := d.sync_version + 1 } := by
  refine ⟨_, rfl, ?_⟩
  obtain ⟨sess, d, h1, h2, h3, h4, h5⟩ :=
    complete_sync_session_updates_device cexState "session_1" false (some "boom") 21 _
      true rfl
  exact ⟨sess, d, h1, h2, h3⟩

/-! ### Claim C4 -/

/-- C4 counterexample: resolving the concrete conflict with `MergeData`
and winner `entry_2` (the conflict's second entry, so the losing entry is
`entry_1` with payload "a") produces payload "b|b" — the winner merged
with itself, not with the losing payload "a" — and a merged_with list
["entry_2"] that does not contain the losing entry id at all. -/
theorem merge_data_wrong_loser_counterexample :
    sampleConflict.entry_id_1 = "entry_1" ∧ sampleConflict.entry_id_2 = "entry_2" ∧
    sampleEntry1.payload = "a" ∧ sampleEntry2.payload = "b" ∧
    ∃ s' : CState,
      resolve_conflict cexState "conflict_1" .MergeData "entry_2" uAdmin 20 =
        .ok (s', true) ∧
      (s'.entries "entry_2").map SyncEntry.payload = some "b|b" ∧
      some "b|b" ≠ some ("b" ++ "|" ++ "a") ∧
      (s'.entries "entry_2").map SyncEntry.merged_with = some ["entry_2"] ∧
      "entry_1" ∉ (["entry_2"] : List String) :=
  ⟨rfl, rfl, rfl, rfl, _, rfl, rfl, by decide, rfl, by decide⟩

/-- C4 amended: `MergeData` always concatenates the winning entry's
payload with the payload of the entry stored under the conflict's
`entry_id_2` (separator "|"), sets its status to `Completed`, and
appends `entry_id_2` to its merged_with — regardless of which entry won.
When the winning entry is `entry_id_1` (so the losing entry is
`entry_id_2`) and it had not been merged with before, this matches the
claim: payload = winning payload + separator + losing payload, and
merged_with contains the losing entry id exactly once. -/
theorem apply_merge_data_spec :
    ∀ (s : CState) (cid win : String) (r : Address) (now : Nat) (s' : CState) (b : Bool)
      (c : SyncConflict) (w e2 : SyncEntry),
      s.conflicts cid = some c → s.entries win = some w →
      s.entries c.entry_id_2 = some e2 →
      resolve_conflict s cid .MergeData win r now = .ok (s', b) →
      s'.entries win = some { w with
        payload := w.payload ++ "|" ++ e2.payload
        sync_status := SyncStatus.Completed
        conflict_resolution := some ConflictResolution.MergeData
        merged_with := w.merged_with ++ [c.entry_id_2] } ∧
      (win = c.entry_id_1 → c.entry_id_2 ∉ w.merged_with →
        (w.merged_with ++ [c.entry_id_2]).count c.entry_id_2 = 1) := by
  intro s cid win r now s' b c w e2 hc hw he2 h
  obtain ⟨c', admin, s1, hc', hadmin, hauth, hb, happly, hs'⟩ := resolve_conflict_ok h
  rw [hc] at hc'
  have hcc : c' = c := (Option.some.inj hc').symm
  subst hcc
  obtain ⟨w', e2', hw', he2', hs1⟩ := apply_merge_data_ok happly
  rw [hw] at hw'
  have hww : w' = w := (Option.some.inj hw').symm
  rw [he2] at he2'
  have hee : e2' = e2 := (Option.some.inj he2').symm
  subst hww
  subst hee
  subst hs'
  subst hs1
  constructor
  · simp
  · intro hwin hnotin
    rw [List.count_append]
    rw [List.count_eq_zero.mpr hnotin]
    simp

/-- Witness for the amended C4 theorem: merging with winner `entry_1`
yields payload "a|b" and merged_with ["entry_2"]. -/
theorem apply_merge_data_spec_witness :
    ∃ s' : CState,
      resolve_conflict cexState "conflict_1" .MergeData "entry_1" uAlice 22 =
        .ok (s', true) ∧
      s'.entries "entry_1" = some { sampleEntry1 with
        payload := "a|b"
        sync_status := SyncStatus.Completed
        conflict_resolution := some ConflictResolution.MergeData
        merged_with := ["entry_2"] } ∧
      (["entry_2"] : List String).count "entry_2" = 1 := by
  refine ⟨_, rfl, ?_, ?_⟩
  · exact (apply_merge_data_spec cexState "conflict_1" "entry_1" uAlice 22 _ true
      sampleConflict sampleEntry1 sampleEntry2 rfl rfl rfl rfl).1
  · exact (apply_merge_data_spec cexState "conflict_1" "entry_1" uAlice 22 _ true
      sampleConflict sampleEntry1 sampleEntry2 rfl rfl rfl rfl).2 rfl (by decide)

/-! ### Claim C5 -/

/-- Effects of any single successful public operation that matter for the
global conflict invariant and for counter monotonicity: the conflict
counter is never changed, the device counter never decreases, and the
conflict store can only change if some conflict already existed. -/
theorem applyOp_ok_effects {s : CState} {op : Op} {now : Nat} {s' : CState}
    (h : applyOp s op now = .ok s') :
    s'.conflictCount = s.conflictCount ∧ s.deviceCount ≤ s'.deviceCount ∧
    (s'.conflicts = s.conflicts ∨ ∃ (cid : String) (c : SyncConflict),
      s.conflicts cid = some c) := by
  cases op with
  | registerDevice u dt name caps =>
    simp only [applyOp, Except.ok.injEq] at h
    subst h
    exact ⟨rfl, Nat.le_succ _, Or.inl rfl⟩
  | startSyncSession u did =>
    simp only [applyOp] at h
    cases hf : start_sync_session s u did now with
    | error e => rw [hf] at h; exact absurd h (by simp [Except.map])
    | ok p =>
      rw [hf] at h
      obtain ⟨s1, sid⟩ := p
      simp only [Except.map, Except.ok.injEq] at h
      subst h
      obtain ⟨d, hd, hu, ha, hsid, hs1⟩ := start_sync_session_ok hf
      subst hs1
      exact ⟨rfl, Nat.le_refl _, Or.inl rfl⟩
  | submitSyncEntry sid did dt dh p =>
    simp only [applyOp] at h
    cases hf : submit_sync_entry s sid did dt dh p now with
    | error e => rw [hf] at h; exact absurd h (by simp [Except.map])
    | ok q =>
      rw [hf] at h
      obtain ⟨s1, eid⟩ := q
      simp only [Except.map, Except.ok.injEq] at h
      subst h
      obtain ⟨sess, hsess, hst, heid, hs1⟩ := submit_sync_entry_ok hf
      subst hs1
      exact ⟨rfl, Nat.le_refl _, Or.inl rfl⟩
  | resolveConflict cid res win r =>
    simp only [applyOp] at h
    cases hf : resolve_conflict s cid res win r now with
    | error e => rw [hf] at h; exact absurd h (by simp [Except.map])
    | ok q =>
      rw [hf] at h
      obtain ⟨s1, b⟩ := q
      simp only [Except.map, Except.ok.injEq] at h
      subst h
      obtain ⟨c, admin, s2, hc, hadmin, hauth, hb, happly, hs1⟩ := resolve_conflict_ok hf
      obtain ⟨hA, hD, hC, hS, hU, hdc, hec, hcc, hsc, hE⟩ := apply_policy_frame happly
      subst hs1
      exact ⟨hcc, Nat.le_of_eq hdc.symm, Or.inr ⟨cid, c, hc⟩⟩
  | completeSyncSession sid success em =>
    simp only [applyOp] at h
    cases hf : complete_sync_session s sid success em now with
    | error e => rw [hf] at h; exact absurd h (by simp [Except.map])
    | ok q =>
      rw [hf] at h
      obtain ⟨s1, b⟩ := q
      simp only [Except.map, Except.ok.injEq] at h
      subst h
      obtain ⟨sess, d, hsess, hst, hd, hb, hs1⟩ := complete_sync_session_ok hf
      subst hs1
      exact ⟨rfl, Nat.le_refl _, Or.inl rfl⟩
  | deactivateDevice u did =>
    simp only [applyOp] at h
    cases hf : deactivate_device s u did now with
    | error e => rw [hf] at h; exact absurd h (by simp [Except.map])
    | ok q =>
      rw [hf] at h
      obtain ⟨s1, b⟩ := q
      simp only [Except.map, Except.ok.injEq] at h
      subst h
      simp only [deactivate_device] at hf
      split at hf
      · exact absurd hf (by simp)
      · split at hf
        · exact absurd hf (by simp)
        · rw [Except.ok.injEq, Prod.mk.injEq] at hf
          obtain ⟨hs1, hb⟩ := hf
          subst hs1
          exact ⟨rfl, Nat.le_refl _, Or.inl rfl⟩
  | updateDeviceCapabilities u did caps =>
    simp only [applyOp] at h
    cases hf : update_device_capabilities s u did caps now with
    | error e => rw [hf] at h; exact absurd h (by simp [Except.map])
    | ok q =>
      rw [hf] at h
      obtain ⟨s1, b⟩ := q
      simp only [Except.map, Except.ok.injEq] at h
      subst h
      simp only [update_device_capabilities] at hf
      split at hf
      · exact absurd hf (by simp)
      · split at hf
        · exact absurd hf (by simp)
        · rw [Except.ok.injEq, Prod.mk.injEq] at hf
          obtain ⟨hs1, hb⟩ := hf
          subst hs1
          exact ⟨rfl, Nat.le_refl _, Or.inl rfl⟩
  | cleanupOldData older =>
    simp only [applyOp, cleanup_old_data, Except.ok.injEq] at h
    subst h
    exact ⟨rfl, Nat.le_refl _, Or.inl rfl⟩

theorem reachable_noConflicts {s : CState} (h : Reachable s) :
    (∀ cid, s.conflicts cid = none) ∧ s.conflictCount = 0 := by
  induction h with
  | init a => exact ⟨fun _ => rfl, rfl⟩
  | step op now hr hstep ih =>
    obtain ⟨hcc, _, hconf⟩ := applyOp_ok_effects hstep
    rcases hconf with heq | ⟨cid, c, hc⟩
    · exact ⟨fun k => by rw [heq]; exact ih.1 k, hcc.trans ih.2⟩
    · rw [ih.1 cid] at hc
      cases hc

/-- C5: in every state reachable from an initialized contract by any
sequence of successful public operations, no `SyncConflict` is stored,
the conflict counter reads 0, conflict detection returns none on every
input, and `get_sync_conflict` — hence `resolve_conflict` — fails
`NotFound` for every conflict id. -/
theorem no_conflict_ever (s : CState) (hs : Reachable s) :
    (∀ cid, s.conflicts cid = none) ∧
    get_conflict_count s = 0 ∧
    (∀ (u : Address) (dt dh : String) (t : Nat), check_for_conflicts s u dt dh t = none) ∧
    (∀ cid, get_sync_conflict s cid = .error (.notFound "Sync conflict not found")) ∧
    (∀ (cid : String) (res : ConflictResolution) (win : String) (r : Address) (now : Nat),
      resolve_conflict s cid res win r now =
        .error (.notFound "Sync conflict not found")) := by
  obtain ⟨h1, h2⟩ := reachable_noConflicts hs
  refine ⟨h1, h2, fun _ _ _ _ => rfl, ?_, ?_⟩
  · intro cid
    simp [get_sync_conflict, h1 cid]
  · intro cid res win r now
    simp [resolve_conflict, h1 cid]

/-- State after one `register_device` on the freshly initialized
contract; a concrete reachable state. -/
def demoState : CState :=
  (register_device (initState uAdmin) uAlice .Mobile "Phone" ["read"] 1).1

/-- Witness for C5 at the concrete reachable state `demoState`. -/
theorem no_conflict_ever_witness :
    get_conflict_count demoState = 0 ∧
    get_sync_conflict demoState "conflict_1" =
      .error (.notFound "Sync conflict not found") ∧
    resolve_conflict demoState "conflict_1" .LastWriteWins "entry_1" uAdmin 3 =
      .error (.notFound "Sync conflict not found") :=
  have h := no_conflict_ever demoState
    (Reachable.step (.registerDevice uAlice .Mobile "Phone" ["read"]) 1
      (Reachable.init uAdmin) rfl)
  ⟨h.2.1, h.2.2.2.1 "conflict_1",
    h.2.2.2.2 "conflict_1" .LastWriteWins "entry_1" uAdmin 3⟩

/-! ### Claim C9 -/

theorem evolves_deviceCount_mono {s s' : CState} (h : Evolves s s') :
    s.deviceCount ≤ s'.deviceCount := by
  induction h with
  | refl => exact Nat.le_refl _
  | step op now he hstep ih => exact ih.trans (applyOp_ok_effects hstep).2.1

/-- C9: `register_device` mints `device_<count+1>`, stores the record
with activity true and sync-version 1, appends the new id at the end of
the owner's device list (so `get_user_devices` lists registrations in
call order), and the returned id differs from the id returned by every
earlier `register_device` call in the run. -/
theorem register_device_spec :
    ∀ (s : CState) (u : Address) (dt : DeviceType) (name : String)
      (caps : List String) (now : Nat) (s' : CState) (id : String),
      register_device s u dt name caps now = (s', id) →
      id = mintId "device" (s.deviceCount + 1) ∧
      s'.devices id = some
        { id := id, user_address := u, device_type := dt, name := name,
          last_sync := 0, is_active := true, capabilities := caps, created_at := now,
          last_seen := now, sync_version := 1 } ∧
      get_user_devices s' u = get_user_devices s u ++ [id] ∧
      (∀ (s₀ : CState) (u₀ : Address) (dt₀ : DeviceType) (n₀ : String)
         (c₀ : List String) (t₀ : Nat) (s₁ : CState) (id₀ : String),
        register_device s₀ u₀ dt₀ n₀ c₀ t₀ = (s₁, id₀) → Evolves s₁ s → id ≠ id₀) := by
  intro s u dt name caps now s' id h
  rw [register_device, Prod.mk.injEq] at h
  obtain ⟨hs', hid⟩ := h
  subst hid
  subst hs'
  refine ⟨rfl, by simp, by simp [get_user_devices], ?_⟩
  intro s₀ u₀ dt₀ n₀ c₀ t₀ s₁ id₀ h₀ hev
  rw [register_device, Prod.mk.injEq] at h₀
  obtain ⟨hs₁, hid₀⟩ := h₀
  subst hid₀
  have hmono : s₁.deviceCount ≤ s.deviceCount := evolves_deviceCount_mono hev
  have hcnt : s₁.deviceCount = s₀.deviceCount + 1 := by rw [← hs₁]
  intro heq
  have := mintId_injective "device" heq
  omega

/-- Witness for C9: two consecutive registrations from the initialized
contract return `device_1` then `device_2`, which differ, and the owner's
device list holds them in call order. -/
theorem register_device_spec_witness :
    ∃ s2 : CState,
      register_device demoState uAlice .Desktop "Laptop" [] 2 = (s2, "device_2") ∧
      "device_2" ≠ "device_1" ∧
      get_user_devices s2 uAlice = ["device_1", "device_2"] := by
  refine ⟨_, rfl, ?_, by decide⟩
  exact (register_device_spec demoState uAlice .Desktop "Laptop" [] 2 _ "device_2"
      rfl).2.2.2 (initState uAdmin) uAlice .Mobile "Phone" ["read"] 1 demoState
      "device_1" rfl (Evolves.refl demoState)

end SyncCoordination
